import Mathlib

/-!
Shallow embedding of the `gologs` library (src/gologs.go): a thin
publish/consume helper around a RabbitMQ queue for audit and activity
log records.

Modelling conventions:
* Wall-clock instants are naturals (`Time`); `time.Now()` becomes an
  explicit `now : Time` argument read inside the publish call.
* JSON bodies on the wire are association lists of key/value pairs in
  emission order (`JObj`); a delivered body that fails `json.Unmarshal`
  altogether is `Body.garbage`, and a type mismatch inside a well-formed
  object is detected field by field in the unmarshal functions.
* The global `var logClient *LogClient` is an explicit
  `Option LogClient` argument (`none` = no successful initialize);
  dereferencing it while `none` is the `Outcome.nilPanic` result.
* The AMQP transport is modelled by dispositions recorded on the
  `Connection`/`Channel`/`Delivery` values (whether a given broker
  operation fails and with which error), and every broker interaction a
  function performs is emitted into an `Op` trace in program order.
-/

namespace Gologs

/-- Wall-clock instants, abstracted as naturals. -/
abbrev Time := Nat

/-- JSON values appearing in log payloads: strings, or serialized
timestamps (a valid RFC3339 string is abstracted as `JVal.t`). -/
inductive JVal : Type
  | s (v : String)
  | t (v : Time)
deriving DecidableEq, Repr

/-- A JSON object body: association list of key/value pairs, kept in
emission order. -/
abbrev JObj := List (String × JVal)

/-- A delivered message body: either a well-formed JSON object, or bytes
on which `json.Unmarshal` fails outright. -/
inductive Body : Type
  | obj (fields : JObj)
  | garbage
deriving DecidableEq, Repr

/-- `AuditLog` struct of src/gologs.go lines 21-29, JSON tags included
as the marshalling below. -/
structure AuditLog : Type where
  module : String
  actionType : String
  searchKey : String
  before : String
  after : String
  actionBy : String
  actionTime : Time
deriving DecidableEq, Repr

/-- `ActivityLog` struct of src/gologs.go lines 32-42; the last four
fields carry `omitempty`. -/
structure ActivityLog : Type where
  userID : String
  username : String
  activity : String
  module : String
  activityTime : Time
  ipAddress : String
  deviceInfo : String
  location : String
  remarks : String
deriving DecidableEq, Repr

/-- `json.Marshal` on `AuditLog`: every field emitted, in declaration
order, under its JSON tag. -/
def AuditLog.marshal (l : AuditLog) : JObj :=
  [("module", JVal.s l.module),
   ("actionType", JVal.s l.actionType),
   ("searchKey", JVal.s l.searchKey),
   ("before", JVal.s l.before),
   ("after", JVal.s l.after),
   ("actionBy", JVal.s l.actionBy),
   ("timestamp", JVal.t l.actionTime)]

/-- `json.Marshal` on `ActivityLog`: the five mandatory fields always
emitted; each `omitempty` string field emitted only when non-empty. -/
def ActivityLog.marshal (l : ActivityLog) : JObj :=
  [("user_id", JVal.s l.userID),
   ("username", JVal.s l.username),
   ("activity", JVal.s l.activity),
   ("module", JVal.s l.module),
   ("activity_time", JVal.t l.activityTime)]
  ++ (if l.ipAddress = "" then [] else [("ip_address", JVal.s l.ipAddress)])
  ++ (if l.deviceInfo = "" then [] else [("device_info", JVal.s l.deviceInfo)])
  ++ (if l.location = "" then [] else [("location", JVal.s l.location)])
  ++ (if l.remarks = "" then [] else [("remarks", JVal.s l.remarks)])

/-- Decoding one string-typed field, Go `json.Unmarshal` style: an
absent key leaves the zero value `""`; a value of the wrong JSON type
fails the whole unmarshal. -/
def getStr (o : JObj) (k : String) : Option String :=
  match o.lookup k with
  | none => some ""
  | some (JVal.s v) => some v
  | some (JVal.t _) => none

/-- Decoding one `time.Time`-typed field: an absent key leaves the zero
time; a value that is not a valid timestamp fails the unmarshal. -/
def getTime (o : JObj) (k : String) : Option Time :=
  match o.lookup k with
  | none => some 0
  | some (JVal.t v) => some v
  | some (JVal.s _) => none

/-- `json.Unmarshal` of a delivered body into `AuditLog`
(src/gologs.go line 188). -/
def unmarshalAudit : Body → Option AuditLog
  | Body.garbage => none
  | Body.obj o => do
      let m ← getStr o "module"
      let at_ ← getStr o "actionType"
      let sk ← getStr o "searchKey"
      let hb ← getStr o "before"
      let ha ← getStr o "after"
      let ab ← getStr o "actionBy"
      let ts ← getTime o "timestamp"
      pure ⟨m, at_, sk, hb, ha, ab, ts⟩

/-- `json.Unmarshal` of a delivered body into `ActivityLog`
(src/gologs.go line 245). -/
def unmarshalActivity : Body → Option ActivityLog
  | Body.garbage => none
  | Body.obj o => do
      let uid ← getStr o "user_id"
      let un ← getStr o "username"
      let ac ← getStr o "activity"
      let m ← getStr o "module"
      let ts ← getTime o "activity_time"
      let ip ← getStr o "ip_address"
      let dev ← getStr o "device_info"
      let loc ← getStr o "location"
      let rem ← getStr o "remarks"
      pure ⟨uid, un, ac, m, ts, ip, dev, loc, rem⟩

/-- Go errors: either a fresh message (`errors.New` / an underlying
transport error) or a `fmt.Errorf("...: %w", cause)` wrap. -/
inductive GoError : Type
  | msg (s : String)
  | wrap (s : String) (cause : GoError)
deriving DecidableEq, Repr

/-- Result of a call: normal return value, error return, or a nil
pointer dereference (Go runtime panic). -/
inductive Outcome (α : Type) : Type
  | ok (a : α)
  | err (e : GoError)
  | nilPanic
deriving DecidableEq, Repr

/-- Whether an outcome is an error return (as opposed to a normal
return or a panic). -/
def Outcome.isErr {α : Type} : Outcome α → Bool
  | Outcome.err _ => true
  | _ => false

/-- An open AMQP connection, together with the transport disposition of
closing it (`Close` discards this error). -/
structure Connection : Type where
  id : Nat
  closeErr : Option GoError
deriving DecidableEq, Repr

/-- An open AMQP channel, together with the transport dispositions of
the channel operations the library performs on it: whether `Publish`,
`Qos`, `Consume` and `Close` fail, and with which underlying error. -/
structure Channel : Type where
  id : Nat
  publishErr : Option GoError
  qosErr : Option GoError
  consumeErr : Option GoError
  closeErr : Option GoError
deriving DecidableEq, Repr

/-- `LogClient` struct (src/gologs.go lines 45-48): both fields are Go
pointers, hence modelled as options («nil» = `none`). -/
structure LogClient : Type where
  connection : Option Connection
  channel : Option Channel
deriving DecidableEq, Repr

/-- One message handed to a consumer: its delivery tag, its body, and
the transport dispositions of `msg.Ack` / `msg.Nack` on it. -/
structure Delivery : Type where
  tag : Nat
  body : Body
  ackErr : Option GoError
  nackErr : Option GoError
deriving DecidableEq, Repr

/-- Observable interactions with the broker and the process log, in
program order. -/
inductive Op : Type
  | queueDeclare (name : String) (durable autoDelete exclusive noWait : Bool)
  | closeConn (c : Connection)
  | closeChan (c : Channel)
  | publish (exchange routingKey : String) (mandatory immediate : Bool)
      (contentType : String) (body : JObj)
  | qos (prefetchCount prefetchSize : Int) (global : Bool)
  | consumeSub (queue consumer : String) (autoAck exclusive noLocal noWait : Bool)
  | ackAttempt (tag : Nat) (multiple : Bool)
  | nackAttempt (tag : Nat) (multiple : Bool) (requeue : Bool)
  | logLine (s : String)
  | auditHandlerCall (rec : AuditLog)
  | activityHandlerCall (rec : ActivityLog)
deriving DecidableEq, Repr

/-- The queue-name constants (src/gologs.go lines 15-18). -/
def AuditTopicName : String := "audit_logs"

/-- See `AuditTopicName`. -/
def ActivityTopicName : String := "activity_logs"

/-- The environment one `initLogClient` call runs in: whether the .env
load fails, the `RABBITMQ_URL` value (`""` = unset), and the transport
dispositions of `amqp.Dial`, `conn.Channel()` and `ch.QueueDeclare`. -/
structure InitEnv : Type where
  dotenvFails : Bool
  rabbitURL : String
  dial : Except GoError Connection
  openChannel : Except GoError Channel
  queueDeclareErr : Option GoError
deriving Repr

/-- The warning trace of the `godotenv.Load` step at the top of
`initLogClient` (src/gologs.go lines 65-67): a load failure is only
logged. -/
def dotenvWarn (env : InitEnv) : List Op :=
  if env.dotenvFails then
    [Op.logLine "Warning: Could not load .env file, using environment variables from the host"]
  else []

/-- `initLogClient` (src/gologs.go lines 64-104). Takes the prior value
of the global `logClient` and returns its new value, the error result,
and the trace of broker/log operations performed. -/
def initLogClient (env : InitEnv) (st : Option LogClient) (topicName : String) :
    Option LogClient × Except GoError Unit × List Op :=
  let warn : List Op := dotenvWarn env
  if env.rabbitURL = "" then
    (st, Except.error
      (GoError.msg "RABBITMQ_URL must be set in the environment variables or .env file"), warn)
  else
    match env.dial with
    | Except.error e =>
        (st, Except.error (GoError.wrap "failed to connect to RabbitMQ" e), warn)
    | Except.ok conn =>
        match env.openChannel with
        | Except.error e =>
            (st, Except.error (GoError.wrap "failed to open a channel" e),
             warn ++ [Op.closeConn conn])
        | Except.ok ch =>
            match env.queueDeclareErr with
            | some e =>
                (st, Except.error (GoError.wrap "failed to declare a queue" e),
                 warn ++ [Op.queueDeclare topicName true false false false,
                          Op.closeChan ch, Op.closeConn conn])
            | none =>
                (some ⟨some conn, some ch⟩, Except.ok (),
                 warn ++ [Op.queueDeclare topicName true false false false])

/-- `InitAuditLogClient` (src/gologs.go lines 54-56). -/
def InitAuditLogClient (env : InitEnv) (st : Option LogClient) :
    Option LogClient × Except GoError Unit × List Op :=
  initLogClient env st AuditTopicName

/-- `InitActivityLogClient` (src/gologs.go lines 59-61). -/
def InitActivityLogClient (env : InitEnv) (st : Option LogClient) :
    Option LogClient × Except GoError Unit × List Op :=
  initLogClient env st ActivityTopicName

/-- `PublishAuditLog` (src/gologs.go lines 107-128): overwrite the
timestamp with `now` (the `time.Now()` read inside the call), marshal,
then publish through the global client's channel; dereferencing a `nil`
global (or channel) panics. -/
def PublishAuditLog (st : Option LogClient) (now : Time) (l : AuditLog) :
    Outcome Unit × List Op :=
  let payload := AuditLog.marshal { l with actionTime := now }
  match st with
  | none => (Outcome.nilPanic, [])
  | some c =>
      match c.channel with
      | none => (Outcome.nilPanic, [])
      | some ch =>
          match ch.publishErr with
          | some e =>
              (Outcome.err (GoError.wrap "failed to publish audit message" e),
               [Op.publish "" AuditTopicName false false "application/json" payload])
          | none =>
              (Outcome.ok (),
               [Op.publish "" AuditTopicName false false "application/json" payload])

/-- `PublishActivityLog` (src/gologs.go lines 131-152). -/
def PublishActivityLog (st : Option LogClient) (now : Time) (l : ActivityLog) :
    Outcome Unit × List Op :=
  let payload := ActivityLog.marshal { l with activityTime := now }
  match st with
  | none => (Outcome.nilPanic, [])
  | some c =>
      match c.channel with
      | none => (Outcome.nilPanic, [])
      | some ch =>
          match ch.publishErr with
          | some e =>
              (Outcome.err (GoError.wrap "failed to publish activity message" e),
               [Op.publish "" ActivityTopicName false false "application/json" payload])
          | none =>
              (Outcome.ok (),
               [Op.publish "" ActivityTopicName false false "application/json" payload])

/-- The acknowledgment callback the audit consume loop hands to the
handler (src/gologs.go lines 193-203): `ack = true` sends a
single-message `Ack(multiple = false)`, `ack = false` a single-message
`Nack(multiple = false, requeue = true)`; a transport failure of either
is only logged. -/
def auditAck (d : Delivery) (ack : Bool) : List Op :=
  if ack then
    Op.ackAttempt d.tag false ::
      (match d.ackErr with
       | some _ => [Op.logLine "Failed to acknowledge audit message"]
       | none => [])
  else
    Op.nackAttempt d.tag false true ::
      (match d.nackErr with
       | some _ => [Op.logLine "Failed to nack audit message"]
       | none => [])

/-- Same callback in the activity consume loop
(src/gologs.go lines 250-260). -/
def activityAck (d : Delivery) (ack : Bool) : List Op :=
  if ack then
    Op.ackAttempt d.tag false ::
      (match d.ackErr with
       | some _ => [Op.logLine "Failed to acknowledge activity message"]
       | none => [])
  else
    Op.nackAttempt d.tag false true ::
      (match d.nackErr with
       | some _ => [Op.logLine "Failed to nack activity message"]
       | none => [])

/-- One iteration of the audit consume loop (src/gologs.go lines
186-204). The handler is modelled by the sequence of boolean values it
passes to the acknowledgment callback (possibly empty, possibly
several: the code does not enforce the at-most-once contract). -/
def processAuditMsg (handler : AuditLog → List Bool) (d : Delivery) : List Op :=
  match unmarshalAudit d.body with
  | none => [Op.logLine "Error unmarshaling audit message"]
  | some rec =>
      Op.auditHandlerCall rec :: (handler rec).flatMap (auditAck d)

/-- The audit consume loop over the whole delivery stream. -/
def auditLoop (handler : AuditLog → List Bool) (msgs : List Delivery) : List Op :=
  msgs.flatMap (processAuditMsg handler)

/-- One iteration of the activity consume loop (src/gologs.go lines
243-261). -/
def processActivityMsg (handler : ActivityLog → List Bool) (d : Delivery) : List Op :=
  match unmarshalActivity d.body with
  | none => [Op.logLine "Error unmarshaling activity message"]
  | some rec =>
      Op.activityHandlerCall rec :: (handler rec).flatMap (activityAck d)

/-- The activity consume loop over the whole delivery stream. -/
def activityLoop (handler : ActivityLog → List Bool) (msgs : List Delivery) : List Op :=
  msgs.flatMap (processActivityMsg handler)

/-- `ConsumeAuditLogs` (src/gologs.go lines 155-209): apply defaults,
set QoS, register the consumer, then run the loop in a goroutine over
the delivery stream `msgs`. The returned outcome is the function's
return value; the trace linearizes the goroutine's operations after the
registration. -/
def ConsumeAuditLogs (st : Option LogClient) (consumerName : Option String)
    (handler : AuditLog → List Bool) (prefetchCount : Option Int)
    (msgs : List Delivery) : Outcome Unit × List Op :=
  let name := consumerName.getD "default_audit_consumer"
  let effectivePrefetchCount := prefetchCount.getD 50
  match st with
  | none => (Outcome.nilPanic, [])
  | some c =>
      match c.channel with
      | none => (Outcome.nilPanic, [])
      | some ch =>
          match ch.qosErr with
          | some e =>
              (Outcome.err (GoError.wrap "failed to set QoS" e),
               [Op.qos effectivePrefetchCount 0 false])
          | none =>
              match ch.consumeErr with
              | some e =>
                  (Outcome.err (GoError.wrap "failed to register an audit consumer" e),
                   [Op.qos effectivePrefetchCount 0 false,
                    Op.consumeSub AuditTopicName name false false false false])
              | none =>
                  (Outcome.ok (),
                   [Op.qos effectivePrefetchCount 0 false,
                    Op.consumeSub AuditTopicName name false false false false,
                    Op.logLine ("Audit consumer " ++ name ++
                      " is waiting for messages. To exit press CTRL+C")]
                   ++ auditLoop handler msgs)

/-- `ConsumeActivityLogs` (src/gologs.go lines 212-266). -/
def ConsumeActivityLogs (st : Option LogClient) (consumerName : Option String)
    (handler : ActivityLog → List Bool) (prefetchCount : Option Int)
    (msgs : List Delivery) : Outcome Unit × List Op :=
  let name := consumerName.getD "default_activity_consumer"
  let effectivePrefetchCount := prefetchCount.getD 50
  match st with
  | none => (Outcome.nilPanic, [])
  | some c =>
      match c.channel with
      | none => (Outcome.nilPanic, [])
      | some ch =>
          match ch.qosErr with
          | some e =>
              (Outcome.err (GoError.wrap "failed to set QoS" e),
               [Op.qos effectivePrefetchCount 0 false])
          | none =>
              match ch.consumeErr with
              | some e =>
                  (Outcome.err (GoError.wrap "failed to register an activity consumer" e),
                   [Op.qos effectivePrefetchCount 0 false,
                    Op.consumeSub ActivityTopicName name false false false false])
              | none =>
                  (Outcome.ok (),
                   [Op.qos effectivePrefetchCount 0 false,
                    Op.consumeSub ActivityTopicName name false false false false,
                    Op.logLine ("Activity consumer " ++ name ++
                      " is waiting for messages. To exit press CTRL+C")]
                   ++ activityLoop handler msgs)

/-- `Close` (src/gologs.go lines 269-276): nil-checks the `channel` and
`connection` fields, closes channel before connection, discards both
close errors; never nil-checks the global pointer itself. -/
def Close (st : Option LogClient) : Outcome Unit × List Op :=
  match st with
  | none => (Outcome.nilPanic, [])
  | some c =>
      (Outcome.ok (),
       (match c.channel with
        | some ch => [Op.closeChan ch]
        | none => []) ++
       (match c.connection with
        | some conn => [Op.closeConn conn]
        | none => []))

/-- `CloseGlobalClient` (src/gologs.go lines 279-281): delegates to
`Close`. -/
def CloseGlobalClient (st : Option LogClient) : Outcome Unit × List Op :=
  Close st

/-- The JSON bodies published to the broker within a trace, in order. -/
def publishedBodies : List Op → List JObj
  | [] => []
  | Op.publish _ _ _ _ _ body :: rest => body :: publishedBodies rest
  | _ :: rest => publishedBodies rest

/-- Whether an op is a broker (positive or negative) acknowledgment
attempt. -/
def Op.isAckish : Op → Bool
  | Op.ackAttempt _ _ => true
  | Op.nackAttempt _ _ _ => true
  | _ => false

/-- Whether an op registers a consumer subscription. -/
def Op.isConsumeSub : Op → Bool
  | Op.consumeSub _ _ _ _ _ _ => true
  | _ => false

/-- A connection value with successful close, for concrete instances. -/
def okConn : Connection := ⟨0, none⟩

/-- A channel on which every operation succeeds, for concrete
instances. -/
def okChan : Channel := ⟨0, none, none, none, none⟩

/-- The global-client value left by a successful initialize against a
fully working transport. -/
def okClient : LogClient := ⟨some okConn, some okChan⟩

/-- A concrete audit record for witnesses and counterexamples. -/
def sampleAudit : AuditLog :=
  ⟨"users", "update", "42", "old", "new", "alice", 7⟩

/-- A concrete activity record (all optional fields empty) for
witnesses. -/
def sampleActivity : ActivityLog :=
  ⟨"u1", "alice", "login", "auth", 7, "", "", "", ""⟩

/-- A concrete delivery whose acknowledgment and negative
acknowledgment both fail at the transport, for witnesses. -/
def flakyDelivery : Delivery :=
  ⟨3, Body.obj (AuditLog.marshal sampleAudit),
   some (GoError.msg "ack transport down"),
   some (GoError.msg "nack transport down")⟩

/-- A channel whose quality-of-service call is refused, for
witnesses. -/
def qosFailChan : Channel :=
  ⟨1, none, some (GoError.msg "qos refused"), none, none⟩

/-- Initialize environment with `RABBITMQ_URL` unset, for witnesses. -/
def envNoURL : InitEnv :=
  ⟨false, "", Except.error (GoError.msg "unused"),
   Except.error (GoError.msg "unused"), none⟩

/-- Initialize environment where dialing the broker fails, for
witnesses. -/
def envDialFail : InitEnv :=
  ⟨false, "amqp://h", Except.error (GoError.msg "dial refused"),
   Except.error (GoError.msg "unused"), none⟩

/-- Initialize environment where opening the channel fails, for
witnesses. -/
def envChanFail : InitEnv :=
  ⟨false, "amqp://h", Except.ok okConn,
   Except.error (GoError.msg "chan refused"), none⟩

/-- Initialize environment where the queue declaration fails (and the
.env load also failed), for witnesses. -/
def envQueueFail : InitEnv :=
  ⟨true, "amqp://h", Except.ok okConn, Except.ok okChan,
   some (GoError.msg "queue conflict")⟩

/-- Marshalling then unmarshalling an audit record is the identity:
every field is emitted and decoded under the same JSON key. -/
theorem unmarshalAudit_marshal (l : AuditLog) :
    unmarshalAudit (Body.obj (AuditLog.marshal l)) = some l := rfl

/-- Marshalling then unmarshalling an activity record is the identity;
in particular an `omitempty` field omitted because it was empty decodes
back to the empty string. -/
theorem unmarshalActivity_marshal (a : ActivityLog) :
    unmarshalActivity (Body.obj (ActivityLog.marshal a)) = some a := by
  rcases a with ⟨uid, un, ac, m, ts, ip, dev, loc, rem⟩
  by_cases hip : ip = "" <;> by_cases hdev : dev = "" <;>
    by_cases hloc : loc = "" <;> by_cases hrem : rem = "" <;>
    simp [ActivityLog.marshal, unmarshalActivity, getStr, getTime, List.lookup,
      hip, hdev, hloc, hrem]

/-- The consume loops process the delivery stream one message at a
time, in order. -/
theorem auditLoop_cons (hdl : AuditLog → List Bool) (d : Delivery) (rest : List Delivery) :
    auditLoop hdl (d :: rest) = processAuditMsg hdl d ++ auditLoop hdl rest := by
  simp [auditLoop]

/-- Activity analogue of `auditLoop_cons`. -/
theorem activityLoop_cons (hdl : ActivityLog → List Bool) (d : Delivery)
    (rest : List Delivery) :
    activityLoop hdl (d :: rest) = processActivityMsg hdl d ++ activityLoop hdl rest := by
  simp [activityLoop]

/-- C1 counterexample: with no successful prior initialize (global
client absent), `PublishAuditLog` dereferences the nil global client
and panics; it does not return any error value, so in particular no
`NotInitializedError` is returned. -/
theorem c1_uninit_publish_panics_not_error :
    (PublishAuditLog none 0 sampleAudit).1 = Outcome.nilPanic ∧
    (PublishAuditLog none 0 sampleAudit).1.isErr = false :=
  ⟨rfl, rfl⟩

/-- C1 (amended): for every publish or consume operation invoked when
no prior initialize call has succeeded (the process-wide client handle
is absent), the call dereferences the missing handle and panics with a
nil pointer dereference; it does not return a `NotInitializedError`
(nor any other error). -/
theorem c1_uninitialized_calls_panic (now : Time) (l : AuditLog) (a : ActivityLog)
    (cn cn2 : Option String) (hdl : AuditLog → List Bool)
    (hdl2 : ActivityLog → List Bool) (pc pc2 : Option Int)
    (msgs msgs2 : List Delivery) :
    (PublishAuditLog none now l).1 = Outcome.nilPanic ∧
    (PublishActivityLog none now a).1 = Outcome.nilPanic ∧
    (ConsumeAuditLogs none cn hdl pc msgs).1 = Outcome.nilPanic ∧
    (ConsumeActivityLogs none cn2 hdl2 pc2 msgs2).1 = Outcome.nilPanic ∧
    (PublishAuditLog none now l).1.isErr = false ∧
    (PublishActivityLog none now a).1.isErr = false ∧
    (ConsumeAuditLogs none cn hdl pc msgs).1.isErr = false ∧
    (ConsumeActivityLogs none cn2 hdl2 pc2 msgs2).1.isErr = false :=
  ⟨rfl, rfl, rfl, rfl, rfl, rfl, rfl, rfl⟩

/-- C2: every JSON body a publish call puts on the wire is the
marshalling of the record with its timestamp field overwritten by the
wall-clock time read inside the call, and hence carries that time
under the timestamp key, regardless of the caller-supplied value. -/
theorem c2_publish_stamps_server_time (st : Option LogClient) (now : Time)
    (l : AuditLog) (a : ActivityLog) :
    (∀ b ∈ publishedBodies (PublishAuditLog st now l).2,
        b = AuditLog.marshal { l with actionTime := now } ∧
        b.lookup "timestamp" = some (JVal.t now)) ∧
    (∀ b ∈ publishedBodies (PublishActivityLog st now a).2,
        b = ActivityLog.marshal { a with activityTime := now } ∧
        b.lookup "activity_time" = some (JVal.t now)) := by
  constructor
  · intro b hb
    rcases st with _ | c
    · simp [PublishAuditLog, publishedBodies] at hb
    · rcases hch : c.channel with _ | ch
      · simp [PublishAuditLog, publishedBodies, hch] at hb
      · rcases hpe : ch.publishErr with _ | e <;>
          · simp [PublishAuditLog, publishedBodies, hch, hpe] at hb
            subst hb
            exact ⟨rfl, rfl⟩
  · intro b hb
    rcases st with _ | c
    · simp [PublishActivityLog, publishedBodies] at hb
    · rcases hch : c.channel with _ | ch
      · simp [PublishActivityLog, publishedBodies, hch] at hb
      · rcases hpe : ch.publishErr with _ | e <;>
          · simp [PublishActivityLog, publishedBodies, hch, hpe] at hb
            subst hb
            exact ⟨rfl, rfl⟩

/-- C2 witness: a concrete publish against a working client puts
exactly the restamped body on the wire, with timestamp `9` even though
the caller supplied `7`. -/
theorem c2_witness :
    (AuditLog.marshal { sampleAudit with actionTime := 9 }).lookup "timestamp" =
      some (JVal.t 9) :=
  ((c2_publish_stamps_server_time (some okClient) 9 sampleAudit sampleActivity).1
    (AuditLog.marshal { sampleAudit with actionTime := 9 }) (by decide)).2

/-- C3: publishing a record at wall-clock time `now` (read inside the
publish call, so lying between the publish call's start `t0` and the
handler invocation time `t2`) puts exactly one body on the wire, and
the consume loop on the same queue invokes the handler with a record
equal to the original in every field except the timestamp, which is
`now` and hence lies in `[t0, t2]`. -/
theorem c3_publish_consume_roundtrip (l : AuditLog) (a : ActivityLog)
    (now t0 t2 : Time) (tag tagB : Nat)
    (hdl : AuditLog → List Bool) (hdl2 : ActivityLog → List Bool)
    (ae ne ae2 ne2 : Option GoError)
    (h0 : t0 ≤ now) (h2 : now ≤ t2) :
    (∃ bodyA recA,
      publishedBodies (PublishAuditLog (some okClient) now l).2 = [bodyA] ∧
      (auditLoop hdl [⟨tag, Body.obj bodyA, ae, ne⟩]).head? =
        some (Op.auditHandlerCall recA) ∧
      recA.module = l.module ∧ recA.actionType = l.actionType ∧
      recA.searchKey = l.searchKey ∧ recA.before = l.before ∧
      recA.after = l.after ∧ recA.actionBy = l.actionBy ∧
      t0 ≤ recA.actionTime ∧ recA.actionTime ≤ t2) ∧
    (∃ bodyB recB,
      publishedBodies (PublishActivityLog (some okClient) now a).2 = [bodyB] ∧
      (activityLoop hdl2 [⟨tagB, Body.obj bodyB, ae2, ne2⟩]).head? =
        some (Op.activityHandlerCall recB) ∧
      recB.userID = a.userID ∧ recB.username = a.username ∧
      recB.activity = a.activity ∧ recB.module = a.module ∧
      recB.ipAddress = a.ipAddress ∧ recB.deviceInfo = a.deviceInfo ∧
      recB.location = a.location ∧ recB.remarks = a.remarks ∧
      t0 ≤ recB.activityTime ∧ recB.activityTime ≤ t2) := by
  constructor
  · refine ⟨AuditLog.marshal { l with actionTime := now },
      { l with actionTime := now }, rfl, ?_, rfl, rfl, rfl, rfl, rfl, rfl, h0, h2⟩
    simp [auditLoop, processAuditMsg, unmarshalAudit_marshal]
  · refine ⟨ActivityLog.marshal { a with activityTime := now },
      { a with activityTime := now }, rfl, ?_, rfl, rfl, rfl, rfl, rfl, rfl, rfl, rfl,
      h0, h2⟩
    simp [activityLoop, processActivityMsg, unmarshalActivity_marshal]

/-- C3 witness: the round trip at a concrete record, stamped at time 5
inside an interval between call start 3 and handler invocation 9. -/
theorem c3_witness :
    ∃ bodyA recA,
      publishedBodies (PublishAuditLog (some okClient) 5 sampleAudit).2 = [bodyA] ∧
      (auditLoop (fun _ => [true]) [⟨0, Body.obj bodyA, none, none⟩]).head? =
        some (Op.auditHandlerCall recA) ∧
      recA.module = sampleAudit.module ∧ recA.actionType = sampleAudit.actionType ∧
      recA.searchKey = sampleAudit.searchKey ∧ recA.before = sampleAudit.before ∧
      recA.after = sampleAudit.after ∧ recA.actionBy = sampleAudit.actionBy ∧
      3 ≤ recA.actionTime ∧ recA.actionTime ≤ 9 :=
  (c3_publish_consume_roundtrip sampleAudit sampleActivity 5 3 9 0 0
    (fun _ => [true]) (fun _ => [true]) none none none none
    (by decide) (by decide)).1

/-- C4: a delivered message whose body fails JSON deserialization
contributes exactly one dropped-with-a-log-entry event to the loop
trace — no handler invocation, no acknowledgment and no rejection —
and the loop continues with the remaining messages. -/
theorem c4_unmarshal_failure_drops_message (d dB : Delivery)
    (rest restB : List Delivery)
    (hdl : AuditLog → List Bool) (hdl2 : ActivityLog → List Bool)
    (hbad : unmarshalAudit d.body = none)
    (hbadB : unmarshalActivity dB.body = none) :
    auditLoop hdl (d :: rest) =
      Op.logLine "Error unmarshaling audit message" :: auditLoop hdl rest ∧
    activityLoop hdl2 (dB :: restB) =
      Op.logLine "Error unmarshaling activity message" :: activityLoop hdl2 restB := by
  constructor
  · rw [auditLoop_cons]
    simp [processAuditMsg, hbad]
  · rw [activityLoop_cons]
    simp [processActivityMsg, hbadB]

/-- C4 witness: a malformed body followed by a well-formed one — the
malformed message is dropped with a log entry and the next message is
still processed. -/
theorem c4_witness :
    auditLoop (fun _ => [true]) (⟨0, Body.garbage, none, none⟩ :: [flakyDelivery]) =
      Op.logLine "Error unmarshaling audit message" ::
        auditLoop (fun _ => [true]) [flakyDelivery] ∧
    activityLoop (fun _ => [false]) [⟨1, Body.garbage, none, none⟩] =
      Op.logLine "Error unmarshaling activity message" ::
        activityLoop (fun _ => [false]) [] :=
  c4_unmarshal_failure_drops_message ⟨0, Body.garbage, none, none⟩
    ⟨1, Body.garbage, none, none⟩ [flakyDelivery] []
    (fun _ => [true]) (fun _ => [false]) rfl rfl

/-- C5: the acknowledgment callback invoked with `true` attempts
exactly one broker acknowledgment, a positive single-message one
(`multiple = false`); invoked with `false` it attempts exactly one
broker acknowledgment, a negative single-message one with requeue
enabled; a transport failure of either is logged; and the loop
processes the remaining messages regardless. -/
theorem c5_ack_nack_single_message (d : Delivery) (hdl : AuditLog → List Bool)
    (hdl2 : ActivityLog → List Bool) (rest : List Delivery) :
    (auditAck d true).filter Op.isAckish = [Op.ackAttempt d.tag false] ∧
    (auditAck d false).filter Op.isAckish = [Op.nackAttempt d.tag false true] ∧
    (activityAck d true).filter Op.isAckish = [Op.ackAttempt d.tag false] ∧
    (activityAck d false).filter Op.isAckish = [Op.nackAttempt d.tag false true] ∧
    (∀ e, d.ackErr = some e →
      Op.logLine "Failed to acknowledge audit message" ∈ auditAck d true ∧
      Op.logLine "Failed to acknowledge activity message" ∈ activityAck d true) ∧
    (∀ e, d.nackErr = some e →
      Op.logLine "Failed to nack audit message" ∈ auditAck d false ∧
      Op.logLine "Failed to nack activity message" ∈ activityAck d false) ∧
    auditLoop hdl (d :: rest) = processAuditMsg hdl d ++ auditLoop hdl rest ∧
    activityLoop hdl2 (d :: rest) = processActivityMsg hdl2 d ++ activityLoop hdl2 rest := by
  rcases d with ⟨tag, body, ackErr, nackErr⟩
  refine ⟨?_, ?_, ?_, ?_, ?_, ?_, auditLoop_cons hdl _ rest, activityLoop_cons hdl2 _ rest⟩ <;>
    rcases ackErr with _ | ea <;> rcases nackErr with _ | en <;>
    simp [auditAck, activityAck, Op.isAckish]

/-- C5 witness: at a delivery whose ack and nack transports both fail,
the callback still attempts exactly one single-message ack (resp. nack
with requeue), the failures are logged, and the loop continues. -/
theorem c5_witness :
    (auditAck flakyDelivery true).filter Op.isAckish = [Op.ackAttempt 3 false] ∧
    (auditAck flakyDelivery false).filter Op.isAckish = [Op.nackAttempt 3 false true] ∧
    Op.logLine "Failed to acknowledge audit message" ∈ auditAck flakyDelivery true ∧
    Op.logLine "Failed to nack audit message" ∈ auditAck flakyDelivery false ∧
    auditLoop (fun _ => [true]) [flakyDelivery] =
      processAuditMsg (fun _ => [true]) flakyDelivery ++ auditLoop (fun _ => [true]) [] := by
  have h := c5_ack_nack_single_message flakyDelivery (fun _ => [true]) (fun _ => [true]) []
  exact ⟨h.1, h.2.1,
    (h.2.2.2.2.1 (GoError.msg "ack transport down") rfl).1,
    (h.2.2.2.2.2.1 (GoError.msg "nack transport down") rfl).1,
    h.2.2.2.2.2.2.1⟩

/-- C10: `Close` (and `CloseGlobalClient`) nil-checks the channel and
connection fields but never the global pointer: on the uninitialized
state it panics with a nil dereference, while after a successful
initialize it closes the channel before the connection, returns
normally whatever the close dispositions, and skips nil fields. -/
theorem c10_close_nil_global_panics (conn : Connection) (ch : Channel) :
    (Close none).1 = Outcome.nilPanic ∧
    CloseGlobalClient none = Close none ∧
    Close (some ⟨some conn, some ch⟩) =
      (Outcome.ok (), [Op.closeChan ch, Op.closeConn conn]) ∧
    Close (some ⟨none, none⟩) = (Outcome.ok (), []) ∧
    CloseGlobalClient (some ⟨some conn, some ch⟩) =
      Close (some ⟨some conn, some ch⟩) :=
  ⟨rfl, rfl, rfl, rfl, rfl⟩

/-- C6: on every failing initialize path the global state is returned
unchanged, the error wraps the underlying cause where one exists, and
every connection/channel opened within the call is closed before
returning — in particular on channel failure the freshly dialed
connection is closed, and on queue-declaration failure both the channel
and the connection are. -/
theorem c6_init_failure_cleanup (env : InitEnv) (st : Option LogClient)
    (topic : String) (e : GoError) (conn : Connection) (ch : Channel) :
    (env.rabbitURL = "" →
      initLogClient env st topic =
        (st, Except.error (GoError.msg
          "RABBITMQ_URL must be set in the environment variables or .env file"),
         dotenvWarn env)) ∧
    (env.rabbitURL ≠ "" → env.dial = Except.error e →
      initLogClient env st topic =
        (st, Except.error (GoError.wrap "failed to connect to RabbitMQ" e),
         dotenvWarn env)) ∧
    (env.rabbitURL ≠ "" → env.dial = Except.ok conn →
      env.openChannel = Except.error e →
      initLogClient env st topic =
        (st, Except.error (GoError.wrap "failed to open a channel" e),
         dotenvWarn env ++ [Op.closeConn conn])) ∧
    (env.rabbitURL ≠ "" → env.dial = Except.ok conn →
      env.openChannel = Except.ok ch → env.queueDeclareErr = some e →
      initLogClient env st topic =
        (st, Except.error (GoError.wrap "failed to declare a queue" e),
         dotenvWarn env ++ [Op.queueDeclare topic true false false false,
                            Op.closeChan ch, Op.closeConn conn])) := by
  refine ⟨?_, ?_, ?_, ?_⟩
  · intro h1
    simp [initLogClient, h1]
  · intro h1 h2
    simp [initLogClient, h1, h2]
  · intro h1 h2 h3
    simp [initLogClient, h1, h2, h3]
  · intro h1 h2 h3 h4
    simp [initLogClient, h1, h2, h3, h4]

/-- C6 witness: the four failure paths at concrete environments — no
URL, dial refused, channel refused (connection closed), queue
declaration conflict (channel then connection closed) — each leaving
the prior global state in place. -/
theorem c6_witness :
    initLogClient envNoURL none AuditTopicName =
      (none, Except.error (GoError.msg
        "RABBITMQ_URL must be set in the environment variables or .env file"),
       dotenvWarn envNoURL) ∧
    initLogClient envDialFail none AuditTopicName =
      (none, Except.error (GoError.wrap "failed to connect to RabbitMQ"
        (GoError.msg "dial refused")), dotenvWarn envDialFail) ∧
    initLogClient envChanFail none AuditTopicName =
      (none, Except.error (GoError.wrap "failed to open a channel"
        (GoError.msg "chan refused")),
       dotenvWarn envChanFail ++ [Op.closeConn okConn]) ∧
    initLogClient envQueueFail (some okClient) ActivityTopicName =
      (some okClient, Except.error (GoError.wrap "failed to declare a queue"
        (GoError.msg "queue conflict")),
       dotenvWarn envQueueFail ++
         [Op.queueDeclare ActivityTopicName true false false false,
          Op.closeChan okChan, Op.closeConn okConn]) := by
  refine ⟨?_, ?_, ?_, ?_⟩
  · exact (c6_init_failure_cleanup envNoURL none AuditTopicName
      (GoError.msg "unused") okConn okChan).1 rfl
  · exact (c6_init_failure_cleanup envDialFail none AuditTopicName
      (GoError.msg "dial refused") okConn okChan).2.1 (by decide) rfl
  · exact (c6_init_failure_cleanup envChanFail none AuditTopicName
      (GoError.msg "chan refused") okConn okChan).2.2.1 (by decide) rfl rfl
  · exact (c6_init_failure_cleanup envQueueFail (some okClient) ActivityTopicName
      (GoError.msg "queue conflict") okConn okChan).2.2.2 (by decide) rfl rfl rfl

/-- C7: a consume call with both optional arguments unset issues, as
its first broker operation, a quality-of-service directive with the
default prefetch limit 50, and whenever a subscription is registered it
is the second operation — after the QoS directive — under the fixed
per-topic default consumer name. -/
theorem c7_consume_defaults (oc : Option Connection) (ch : Channel)
    (hdl : AuditLog → List Bool) (hdl2 : ActivityLog → List Bool)
    (msgs msgs2 : List Delivery) :
    ((ConsumeAuditLogs (some ⟨oc, some ch⟩) none hdl none msgs).2 =
        [Op.qos 50 0 false] ∨
      ((ConsumeAuditLogs (some ⟨oc, some ch⟩) none hdl none msgs).2).take 2 =
        [Op.qos 50 0 false,
         Op.consumeSub AuditTopicName "default_audit_consumer" false false false false]) ∧
    ((ConsumeActivityLogs (some ⟨oc, some ch⟩) none hdl2 none msgs2).2 =
        [Op.qos 50 0 false] ∨
      ((ConsumeActivityLogs (some ⟨oc, some ch⟩) none hdl2 none msgs2).2).take 2 =
        [Op.qos 50 0 false,
         Op.consumeSub ActivityTopicName "default_activity_consumer"
           false false false false]) := by
  constructor
  · rcases hq : ch.qosErr with _ | e
    · rcases hc : ch.consumeErr with _ | e2
      · right
        simp [ConsumeAuditLogs, hq, hc]
      · right
        simp [ConsumeAuditLogs, hq, hc]
    · left
      simp [ConsumeAuditLogs, hq]
  · rcases hq : ch.qosErr with _ | e
    · rcases hc : ch.consumeErr with _ | e2
      · right
        simp [ConsumeActivityLogs, hq, hc]
      · right
        simp [ConsumeActivityLogs, hq, hc]
    · left
      simp [ConsumeActivityLogs, hq]

/-- C8: a consume call's return value is decided entirely by the QoS
and subscription-registration steps — it is `ok` whenever both succeed,
every error return is one of those two wrapped failures, and the value
is independent of the delivery stream and of the handler (the loop runs
after the call has returned). -/
theorem c8_consume_returns_after_subscribe (oc : Option Connection) (ch : Channel)
    (cn cn2 : Option String) (hdl : AuditLog → List Bool)
    (hdl2 : ActivityLog → List Bool) (pc pc2 : Option Int)
    (msgs msgs2 : List Delivery) :
    (ch.qosErr = none → ch.consumeErr = none →
      (ConsumeAuditLogs (some ⟨oc, some ch⟩) cn hdl pc msgs).1 = Outcome.ok () ∧
      (ConsumeActivityLogs (some ⟨oc, some ch⟩) cn2 hdl2 pc2 msgs2).1 = Outcome.ok ()) ∧
    (∀ e, (ConsumeAuditLogs (some ⟨oc, some ch⟩) cn hdl pc msgs).1 = Outcome.err e →
      (∃ e0, ch.qosErr = some e0 ∧ e = GoError.wrap "failed to set QoS" e0) ∨
      (∃ e0, ch.consumeErr = some e0 ∧
        e = GoError.wrap "failed to register an audit consumer" e0)) ∧
    (∀ e, (ConsumeActivityLogs (some ⟨oc, some ch⟩) cn2 hdl2 pc2 msgs2).1 =
        Outcome.err e →
      (∃ e0, ch.qosErr = some e0 ∧ e = GoError.wrap "failed to set QoS" e0) ∨
      (∃ e0, ch.consumeErr = some e0 ∧
        e = GoError.wrap "failed to register an activity consumer" e0)) ∧
    (ConsumeAuditLogs (some ⟨oc, some ch⟩) cn hdl pc msgs).1 =
      (ConsumeAuditLogs (some ⟨oc, some ch⟩) cn (fun _ => []) pc []).1 ∧
    (ConsumeActivityLogs (some ⟨oc, some ch⟩) cn2 hdl2 pc2 msgs2).1 =
      (ConsumeActivityLogs (some ⟨oc, some ch⟩) cn2 (fun _ => []) pc2 []).1 := by
  rcases hq : ch.qosErr with _ | e1 <;> rcases hc : ch.consumeErr with _ | e2 <;>
    refine ⟨?_, ?_, ?_, ?_, ?_⟩ <;>
    simp [ConsumeAuditLogs, ConsumeActivityLogs, hq, hc]

/-- C8 witness: against a working channel a consume call over a
non-empty stream (with a handler that acknowledges) returns `ok`, and
against a channel whose QoS step is refused the error return is the
wrapped QoS failure. -/
theorem c8_witness :
    (ConsumeAuditLogs (some ⟨some okConn, some okChan⟩) none
        (fun _ => [true]) none [flakyDelivery]).1 = Outcome.ok () ∧
    ((∃ e0, qosFailChan.qosErr = some e0 ∧
        GoError.wrap "failed to set QoS" (GoError.msg "qos refused") =
          GoError.wrap "failed to set QoS" e0) ∨
      (∃ e0, qosFailChan.consumeErr = some e0 ∧
        GoError.wrap "failed to set QoS" (GoError.msg "qos refused") =
          GoError.wrap "failed to register an audit consumer" e0)) := by
  have h1 := c8_consume_returns_after_subscribe (some okConn) okChan none none
    (fun _ => [true]) (fun _ => []) none none [flakyDelivery] []
  have h2 := c8_consume_returns_after_subscribe (some okConn) qosFailChan none none
    (fun _ => []) (fun _ => []) none none [] []
  exact ⟨(h1.1 rfl rfl).1, h2.2.1 _ rfl⟩

/-- C9: each optional activity field that is empty at publish time is
entirely absent from the marshalled payload (its key does not occur at
all), and decoding the payload restores every field, the omitted ones
to their empty value. -/
theorem c9_activity_omitempty (a : ActivityLog) :
    (a.ipAddress = "" → (ActivityLog.marshal a).lookup "ip_address" = none) ∧
    (a.deviceInfo = "" → (ActivityLog.marshal a).lookup "device_info" = none) ∧
    (a.location = "" → (ActivityLog.marshal a).lookup "location" = none) ∧
    (a.remarks = "" → (ActivityLog.marshal a).lookup "remarks" = none) ∧
    unmarshalActivity (Body.obj (ActivityLog.marshal a)) = some a := by
  obtain ⟨uid, un, ac, m, ts, ip, dev, loc, rem⟩ := a
  refine ⟨?_, ?_, ?_, ?_, unmarshalActivity_marshal _⟩ <;>
    intro h <;>
    by_cases hip : ip = "" <;> by_cases hdev : dev = "" <;>
      by_cases hloc : loc = "" <;> by_cases hrem : rem = "" <;>
      simp_all [ActivityLog.marshal, List.lookup]

/-- C9 witness: at a concrete record with all four optional fields
empty, none of the optional keys occurs in the payload and the payload
decodes back to the record. -/
theorem c9_witness :
    (ActivityLog.marshal sampleActivity).lookup "ip_address" = none ∧
    (ActivityLog.marshal sampleActivity).lookup "device_info" = none ∧
    (ActivityLog.marshal sampleActivity).lookup "location" = none ∧
    (ActivityLog.marshal sampleActivity).lookup "remarks" = none ∧
    unmarshalActivity (Body.obj (ActivityLog.marshal sampleActivity)) =
      some sampleActivity := by
  have h := c9_activity_omitempty sampleActivity
  exact ⟨h.1 rfl, h.2.1 rfl, h.2.2.1 rfl, h.2.2.2.1 rfl, h.2.2.2.2⟩

end Gologs
